import Mathlib

/-!
Verification of the process-lifecycle supervisor in
`src/py/selenium/webdriver/common/service.py` and the Safari variant in
`src/py/selenium/webdriver/safari/service.py`.

The Python code is shallowly embedded: OS interactions (spawning, polling the
child's exit status, TCP reachability, stream closing, signalling) are oracle
parameters describing what each OS call does; the control flow of the Python
methods is translated line by line into pure Lean functions over those oracles.
Python exceptions are modelled by the `PyError` type and `Except`/`Option`
results; Python truthiness of an integer (`if return_code:`) is translated as
a test against `0`, and truthiness of a dict/list (`env or os.environ`) as a
test against the empty list.
-/

/-- Python exception values that the supervisor's code paths can raise or
catch.  `webDriverException` carries the formatted message; `osError` carries
the errno; `timeoutExpired` models `subprocess.TimeoutExpired` (raised by
`Popen.wait(timeout)`), which is *not* an `OSError` in Python;
`attributeError` models `AttributeError` (a missing stream attribute);
`urlError` models `urllib.error.URLError`. -/
inductive PyError where
  | webDriverException (msg : String)
  | osError (errno : Int)
  | typeError
  | timeoutExpired
  | urlError
  | attributeError
deriving DecidableEq

/-- Whether a `PyError` would be caught by Python's `except OSError`. -/
def PyError.isOSError : PyError → Bool
  | .osError _ => true
  | _ => false

/-- The `log_file` argument / field: `subprocess.PIPE`, `subprocess.DEVNULL`,
or an open file handle (with its closed flag, to observe double-close). -/
inductive LogFile where
  | pipe
  | devnull
  | handle (closed : Bool)
deriving DecidableEq

/-- The module-level constant `_HAS_NATIVE_DEVNULL = True`. -/
def HAS_NATIVE_DEVNULL : Bool := true

/-- The `__init__` line
`self.log_file = open(os.devnull, "wb") if not _HAS_NATIVE_DEVNULL and log_file == DEVNULL else log_file`. -/
def resolve_log_file (log_file : LogFile) : LogFile :=
  match log_file with
  | .devnull => if HAS_NATIVE_DEVNULL then .devnull else .handle false
  | x => x

/-- Characters of the final path component: everything after the last `'/'`. -/
def basename_aux : List Char → List Char → List Char
  | [], acc => acc.reverse
  | c :: rest, acc => if c = '/' then basename_aux rest [] else basename_aux rest (c :: acc)

/-- `os.path.basename` for POSIX paths: the part after the last slash. -/
def basename (p : String) : String :=
  String.mk (basename_aux p.data [])

/-- Oracle for what `subprocess.Popen(...)` does on this call: succeed, raise
`TypeError` (malformed argument list), raise an `OSError` with the given
errno, or raise some other exception whose `str()` is `msg`. -/
inductive SpawnResult where
  | ok
  | typeError
  | osError (errno : Int)
  | otherError (msg : String)
deriving DecidableEq

/-- Oracle for what `urllib.request.urlopen` does: succeed or raise `URLError`. -/
inductive UrlopenResult where
  | ok
  | urlError
deriving DecidableEq

/-- `errno.ENOENT`. -/
def ENOENT : Int := 2

/-- `errno.EACCES`. -/
def EACCES : Int := 13

/-- The mutable state of a `Service` instance (the fields assigned by
`Service.__init__`).  The process handle itself is behaviour-free in the
model (its `poll`/`wait`/... behaviour comes from oracles), so it is
represented by `Option Unit`: `none` = the Python field is `None`. -/
structure ServiceState where
  path : String
  port : Int
  log_file : LogFile
  start_error_message : String
  env : List (String × String)
  process : Option Unit
deriving DecidableEq

/-- `Service.__init__(executable, port, log_file, env, start_error_message)`.
`os_environ` is the current process environment (`os.environ`), `freePort`
the value `utils.free_port()` would return (free-port allocation is an
external collaborator).  `self.port = port or utils.free_port()` uses Python
int truthiness; `self.env = env or os.environ` uses dict truthiness (both
`None` and `{}` are falsy). -/
def service_init (executable : String) (port : Int) (log_file : LogFile)
    (env : Option (List (String × String))) (start_error_message : String)
    (os_environ : List (String × String)) (freePort : Int) : ServiceState :=
  { path := executable
    port := if port = 0 then freePort else port
    log_file := resolve_log_file log_file
    start_error_message := start_error_message
    env := match env with
           | none => os_environ
           | some e => if e = [] then os_environ else e
    process := none }

/-- Modelled from the spec: `utils.join_host_port` lives in
`selenium/webdriver/common/utils.py`, which is not under `src/`.  Spec §6:
"Base URL format: `http://<host>:<port>` (host is always `localhost` for
this core)", so for a colon-free host the join is `host:port`. -/
def join_host_port (host : String) (port : Int) : String :=
  host ++ ":" ++ toString port

/-- The `service_url` property: `f"http://{utils.join_host_port('localhost', self.port)}"`. -/
def service_url (s : ServiceState) : String :=
  "http://" ++ join_host_port "localhost" s.port

/-- `Service.assert_process_still_running`:
`return_code = self.process.poll()` (`pollResult` is the oracle for that
call: `none` = still running) followed by `if return_code:` — Python int
truthiness, so `None` *and* `0` are falsy and raise nothing. -/
def assert_process_still_running (path : String) (pollResult : Option Int) :
    Except PyError Unit :=
  match pollResult with
  | none => .ok ()
  | some rc =>
    if rc = 0 then .ok ()
    else .error (.webDriverException
      ("Service " ++ path ++ " unexpectedly exited. Status code was: " ++ toString rc))

/-- The `try/except` around `subprocess.Popen` in `Service.start`:
`except TypeError: raise` re-raises; `except OSError` maps `ENOENT` and
`EACCES` to `WebDriverException` messages and re-raises any other `OSError`
unchanged (`else: raise`); `except Exception as e` wraps anything else. -/
def start_spawn (path : String) (start_error_message : String) (r : SpawnResult) :
    Except PyError Unit :=
  match r with
  | .ok => .ok ()
  | .typeError => .error .typeError
  | .osError e =>
    if e = ENOENT then
      .error (.webDriverException
        ("'" ++ basename path ++ "' executable needs to be in PATH. " ++ start_error_message))
    else if e = EACCES then
      .error (.webDriverException
        ("'" ++ basename path ++ "' executable may have wrong permissions. " ++ start_error_message))
    else .error (.osError e)
  | .otherError msg => .error (.webDriverException
      ("The executable " ++ basename path ++ " needs to be available in the path. "
        ++ start_error_message ++ "\n" ++ msg))

/-- Outcome of the readiness-polling loop in `Service.start`. -/
inductive LoopOutcome where
  | connected (i : Nat)
  | exited (e : PyError)
  | timeout
deriving DecidableEq

/-- The body of `while True:` in `Service.start`, with `fuel` = number of
further iterations allowed after this one (the Python counter `count` starts
at 0 and the loop raises when `count == 60`, i.e. on the 60th unsuccessful
iteration), and `i` the 0-based iteration index.  `pollAt i` is the oracle
for `self.process.poll()` at iteration `i`, `connAt i` for
`self.is_connectable()` (which is `utils.is_connectable(self.port)`, an
external probe returning a Bool). -/
def start_loop_aux (path : String) (pollAt : Nat → Option Int) (connAt : Nat → Bool) :
    Nat → Nat → LoopOutcome
  | 0, i =>
    match assert_process_still_running path (pollAt i) with
    | .error e => .exited e
    | .ok _ => if connAt i then .connected i else .timeout
  | fuel + 1, i =>
    match assert_process_still_running path (pollAt i) with
    | .error e => .exited e
    | .ok _ =>
      if connAt i then .connected i
      else start_loop_aux path pollAt connAt fuel (i + 1)

/-- The readiness-polling loop of `Service.start`: iteration indices 0..59,
the timeout `WebDriverException` being raised when `count` reaches 60. -/
def start_loop (path : String) (pollAt : Nat → Option Int) (connAt : Nat → Bool) :
    LoopOutcome :=
  start_loop_aux path pollAt connAt 59 0

/-- `Service.start`: the spawn `try/except` (on success the `Popen` handle is
assigned to `self.process` *before* the readiness loop runs, so the field
stays populated even when the loop then raises), then the readiness loop;
loop timeout raises `"Can not connect to the Service {path}"`.  Returns the
object state after the call together with the exception it raises, if any. -/
def start (s : ServiceState) (spawn : SpawnResult) (pollAt : Nat → Option Int)
    (connAt : Nat → Bool) : ServiceState × Option PyError :=
  match start_spawn s.path s.start_error_message spawn with
  | .error e => (s, some e)
  | .ok _ =>
    match start_loop s.path pollAt connAt with
    | .connected _ => ({ s with process := some () }, none)
    | .exited e => ({ s with process := some () }, some e)
    | .timeout => ({ s with process := some () },
        some (.webDriverException ("Can not connect to the Service " ++ s.path)))

/-- Number of `is_connectable` checks performed by
`for _ in range(30): if not self.is_connectable(): break; sleep(1)` —
one check per iteration, stopping after the first check that returns false,
at most `fuel` checks in total. -/
def shutdown_checks_aux (connAt : Nat → Bool) : Nat → Nat → Nat
  | 0, _ => 0
  | fuel + 1, i => if connAt i then shutdown_checks_aux connAt fuel (i + 1) + 1 else 1

/-- `Service.send_remote_shutdown_command`, observed through the number of
`is_connectable` polls it performs: `urlopen(f"{self.service_url}/shutdown")`
wrapped in `try/except URLError: return` — on `URLError` the method returns
*before* the polling loop, so zero polls happen. -/
def send_remote_shutdown_command (urlopen : UrlopenResult) (connAt : Nat → Bool) : Nat :=
  match urlopen with
  | .urlError => 0
  | .ok => shutdown_checks_aux connAt 30 0

/-- Oracle for the OS calls inside `Service._terminate_process`: what each of
`stdin.close()`, `stdout.close()`, `stderr.close()`, `process.terminate()`,
`process.wait(60)` and `process.kill()` raises (`none` = returns normally). -/
structure TermBehavior where
  closeStdin : Option PyError
  closeStdout : Option PyError
  closeStderr : Option PyError
  terminate : Option PyError
  wait : Option PyError
  kill : Option PyError
deriving DecidableEq

/-- `with contextlib.suppress(AttributeError): stream.close()` — an
`AttributeError` is swallowed, anything else escapes the `with`. -/
def suppress_attr (e : Option PyError) : Option PyError :=
  match e with
  | some .attributeError => none
  | x => x

/-- The straight-line body of the `try:` block of `_terminate_process`:
returns (was `process.kill()` reached, the exception escaping the block). -/
def term_seq (b : TermBehavior) : Bool × Option PyError :=
  match suppress_attr b.closeStdin with
  | some e => (false, some e)
  | none =>
    match suppress_attr b.closeStdout with
    | some e => (false, some e)
    | none =>
      match suppress_attr b.closeStderr with
      | some e => (false, some e)
      | none =>
        match b.terminate with
        | some e => (false, some e)
        | none =>
          match b.wait with
          | some e => (false, some e)
          | none => (true, b.kill)

/-- Result of `_terminate_process`: whether `kill()` was reached and which
exception (if any) propagates to the caller. -/
structure TermResult where
  killReached : Bool
  raised : Option PyError
deriving DecidableEq

/-- `Service._terminate_process`: the `try:` body guarded by
`except OSError: log.error(...)` — only `OSError` is caught (and merely
logged); any other exception propagates. -/
def terminate_process (b : TermBehavior) : TermResult :=
  match term_seq b with
  | (kr, none) => ⟨kr, none⟩
  | (kr, some e) => if e.isOSError then ⟨kr, none⟩ else ⟨kr, some e⟩

/-- The guard `if self.log_file != PIPE and not (self.log_file == DEVNULL and
_HAS_NATIVE_DEVNULL):` in `Service.stop`. -/
def should_close_log : LogFile → Bool
  | .pipe => false
  | .devnull => !HAS_NATIVE_DEVNULL
  | .handle _ => true

/-- `with contextlib.suppress(Exception): self.log_file.close()` — every
exception is swallowed, and closing an already-closed Python file is a
no-op, so the only state change is the closed flag. -/
def close_log_file : LogFile → LogFile
  | .handle _ => .handle true
  | x => x

/-- Environment oracle for one `Service.stop` call. -/
structure StopOracle where
  urlopen : UrlopenResult
  connAt : Nat → Bool
  term : TermBehavior

/-- Observables of one `Service.stop` call. -/
structure StopResult where
  state : ServiceState
  raised : Option PyError
  killReached : Bool
  shutdownChecks : Nat

/-- `Service.stop`: close the log file (suppressing every exception) unless
it is `PIPE` or native `DEVNULL`; then, if `self.process is not None`, run
`send_remote_shutdown_command` under `contextlib.suppress(TypeError)` and
call `_terminate_process`.  Note that `self.process` is never assigned
`None`. -/
def stop (s : ServiceState) (o : StopOracle) : StopResult :=
  let lf := if should_close_log s.log_file then close_log_file s.log_file else s.log_file
  match s.process with
  | none => ⟨{ s with log_file := lf }, none, false, 0⟩
  | some _ =>
    let checks := send_remote_shutdown_command o.urlopen o.connAt
    let t := terminate_process o.term
    ⟨{ s with log_file := lf }, t.raised, t.killReached, checks⟩

/-- `Service.__del__`: `with contextlib.suppress(Exception): self.stop()` —
whatever `stop` raises is swallowed, only the state change remains. -/
def service_del (s : ServiceState) (o : StopOracle) : ServiceState :=
  (stop s o).state

/-! ## The Safari variant (`src/py/selenium/webdriver/safari/service.py`) -/

/-- `DEFAULT_EXECUTABLE_PATH` in the Safari module. -/
def DEFAULT_EXECUTABLE_PATH : String := "/usr/bin/safaridriver"

/-- The message raised when the path contains "Safari Technology Preview". -/
def safari_stp_message : String :=
  "Safari Technology Preview does not seem to be installed. You can download it at https://developer.apple.com/safari/download/."

/-- The message raised for every other missing executable path. -/
def safari_not_found_message : String :=
  "SafariDriver was not found; are you running Safari 10 or later? You can download Safari at https://developer.apple.com/safari/download/."

/-- Whether `pat` occurs contiguously in the character list. -/
def contains_from (pat : List Char) : List Char → Bool
  | [] => pat.isPrefixOf ([] : List Char)
  | c :: rest => pat.isPrefixOf (c :: rest) || contains_from pat rest

/-- Python's `pat in s` substring test. -/
def str_contains (s pat : String) : Bool :=
  contains_from pat.data s.data

/-- The state built by the Safari `Service.__init__`: the base `Service`
state plus the subclass fields `self.quiet` and `self.service_args`. -/
structure SafariState where
  base : ServiceState
  quiet : Bool
  service_args : List String
deriving DecidableEq

/-- The Safari `Service.__init__`: validates `os.path.exists(executable_path)`
(oracle `path_exists`) and raises `Exception(message)` *before* the base
constructor runs; otherwise resolves the port (`port or utils.free_port()`),
defaults `service_args` (`service_args or []`), picks the log sink
(`PIPE`, or an opened `os.devnull` handle when `quiet`), and calls
`super().__init__(executable_path, port, log)`. -/
def safari_init (path_exists : String → Bool) (freePort : Int)
    (os_environ : List (String × String)) (executable_path : String) (port : Int)
    (quiet : Bool) (service_args : Option (List String)) : Except String SafariState :=
  if path_exists executable_path then
    let port := if port = 0 then freePort else port
    let args := service_args.getD []
    let log : LogFile := if quiet then .handle false else .pipe
    .ok ⟨service_init executable_path port log none "" os_environ freePort, quiet, args⟩
  else
    .error (if str_contains executable_path "Safari Technology Preview" then
              safari_stp_message
            else safari_not_found_message)

/-- The Safari `command_line_args`: `["-p", f"{self.port}"] + self.service_args`. -/
def command_line_args (s : SafariState) : List String :=
  ["-p", toString s.base.port] ++ s.service_args

/-! ## Concrete states and oracles used in counterexamples and witnesses -/

/-- A freshly constructed service on port 4444 with a real log-file handle. -/
def s0c : ServiceState :=
  service_init "/usr/bin/driver" 4444 (.handle false) none "" [("PATH", "/usr/bin")] 9515

/-- `s0c` after a successful `start` (the process handle populated). -/
def s1c : ServiceState := { s0c with process := some () }

/-- Termination steps that all return normally. -/
def benign_term : TermBehavior := ⟨none, none, none, none, none, none⟩

/-- A stop call in a quiescent environment: the shutdown endpoint is gone
(`urlopen` raises `URLError`), the port no longer accepts connections, and
every termination step returns normally. -/
def benign_stop : StopOracle := ⟨.urlError, fun _ => false, benign_term⟩

/-- Termination steps where `process.wait(60)` raises
`subprocess.TimeoutExpired` (the child survived SIGTERM for 60 time units). -/
def wait_timeout_term : TermBehavior := ⟨none, none, none, none, some .timeoutExpired, none⟩

/-- A stop call whose graceful wait times out. -/
def wait_timeout_stop : StopOracle := ⟨.urlError, fun _ => false, wait_timeout_term⟩

/-! ## Helper lemmas about the readiness-polling loop -/

theorem start_loop_aux_timeout (path : String) (pollAt : Nat → Option Int)
    (connAt : Nat → Bool) :
    ∀ fuel i,
      (∀ k, k ≤ fuel → assert_process_still_running path (pollAt (i + k)) = .ok ()) →
      (∀ k, k ≤ fuel → connAt (i + k) = false) →
      start_loop_aux path pollAt connAt fuel i = .timeout := by
  intro fuel
  induction fuel with
  | zero =>
    intro i h1 h2
    have ha := h1 0 (Nat.le_refl 0)
    have hc := h2 0 (Nat.le_refl 0)
    simp only [Nat.add_zero] at ha hc
    simp [start_loop_aux, ha, hc]
  | succ f ih =>
    intro i h1 h2
    have ha := h1 0 (Nat.zero_le _)
    have hc := h2 0 (Nat.zero_le _)
    simp only [Nat.add_zero] at ha hc
    simp only [start_loop_aux, ha, hc, Bool.false_eq_true, if_false]
    exact ih (i + 1)
      (fun k hk => by
        have h := h1 (k + 1) (Nat.succ_le_succ hk)
        rwa [show i + (k + 1) = i + 1 + k by omega] at h)
      (fun k hk => by
        have h := h2 (k + 1) (Nat.succ_le_succ hk)
        rwa [show i + (k + 1) = i + 1 + k by omega] at h)

theorem start_loop_aux_first_conn (path : String) (pollAt : Nat → Option Int)
    (connAt : Nat → Bool) :
    ∀ m fuel i, m ≤ fuel →
      (∀ k, k ≤ m → assert_process_still_running path (pollAt (i + k)) = .ok ()) →
      (∀ k, k < m → connAt (i + k) = false) →
      connAt (i + m) = true →
      start_loop_aux path pollAt connAt fuel i = .connected (i + m) := by
  intro m
  induction m with
  | zero =>
    intro fuel i _ h1 _ hc
    have ha := h1 0 (Nat.le_refl 0)
    simp only [Nat.add_zero] at ha hc
    cases fuel <;> simp [start_loop_aux, ha, hc]
  | succ m ih =>
    intro fuel i hm h1 h2 hc
    obtain ⟨f, rfl⟩ : ∃ f, fuel = f + 1 := ⟨fuel - 1, by omega⟩
    have ha := h1 0 (Nat.zero_le _)
    have hc0 := h2 0 (Nat.succ_pos m)
    simp only [Nat.add_zero] at ha hc0
    simp only [start_loop_aux, ha, hc0, Bool.false_eq_true, if_false]
    have hgoal := ih f (i + 1) (by omega)
      (fun k hk => by
        have h := h1 (k + 1) (Nat.succ_le_succ hk)
        rwa [show i + (k + 1) = i + 1 + k by omega] at h)
      (fun k hk => by
        have h := h2 (k + 1) (Nat.succ_lt_succ hk)
        rwa [show i + (k + 1) = i + 1 + k by omega] at h)
      (by rwa [show i + 1 + m = i + (m + 1) by omega])
    rwa [show i + 1 + m = i + (m + 1) by omega] at hgoal

theorem start_loop_aux_exit (path : String) (pollAt : Nat → Option Int)
    (connAt : Nat → Bool) :
    ∀ m fuel i e, m ≤ fuel →
      (∀ k, k < m → assert_process_still_running path (pollAt (i + k)) = .ok ()) →
      (∀ k, k < m → connAt (i + k) = false) →
      assert_process_still_running path (pollAt (i + m)) = .error e →
      start_loop_aux path pollAt connAt fuel i = .exited e := by
  intro m
  induction m with
  | zero =>
    intro fuel i e _ _ _ he
    simp only [Nat.add_zero] at he
    cases fuel <;> simp [start_loop_aux, he]
  | succ m ih =>
    intro fuel i e hm h1 h2 he
    obtain ⟨f, rfl⟩ : ∃ f, fuel = f + 1 := ⟨fuel - 1, by omega⟩
    have ha := h1 0 (Nat.succ_pos m)
    have hc0 := h2 0 (Nat.succ_pos m)
    simp only [Nat.add_zero] at ha hc0
    simp only [start_loop_aux, ha, hc0, Bool.false_eq_true, if_false]
    exact ih f (i + 1) e (by omega)
      (fun k hk => by
        have h := h1 (k + 1) (Nat.succ_lt_succ hk)
        rwa [show i + (k + 1) = i + 1 + k by omega] at h)
      (fun k hk => by
        have h := h2 (k + 1) (Nat.succ_lt_succ hk)
        rwa [show i + (k + 1) = i + 1 + k by omega] at h)
      (by rwa [show i + (m + 1) = i + 1 + m by omega] at he)

theorem start_loop_aux_congr (path : String) (pollAt pollAt' : Nat → Option Int)
    (connAt connAt' : Nat → Bool) :
    ∀ fuel i,
      (∀ k, k ≤ fuel → pollAt (i + k) = pollAt' (i + k) ∧ connAt (i + k) = connAt' (i + k)) →
      start_loop_aux path pollAt connAt fuel i =
        start_loop_aux path pollAt' connAt' fuel i := by
  intro fuel
  induction fuel with
  | zero =>
    intro i h
    have hp := (h 0 (Nat.le_refl 0)).1
    have hc := (h 0 (Nat.le_refl 0)).2
    simp only [Nat.add_zero] at hp hc
    simp only [start_loop_aux, hp, hc]
  | succ f ih =>
    intro i h
    have hp := (h 0 (Nat.zero_le _)).1
    have hc := (h 0 (Nat.zero_le _)).2
    simp only [Nat.add_zero] at hp hc
    have hrec := ih (i + 1)
      (fun k hk => by
        have hh := h (k + 1) (Nat.succ_le_succ hk)
        rwa [show i + (k + 1) = i + 1 + k by omega] at hh)
    simp only [start_loop_aux, hp, hc, hrec]

/-! ## Helper lemmas about termination and stop -/

theorem term_seq_kill_iff (b : TermBehavior) :
    (term_seq b).1 = true ↔
      suppress_attr b.closeStdin = none ∧ suppress_attr b.closeStdout = none ∧
      suppress_attr b.closeStderr = none ∧ b.terminate = none ∧ b.wait = none := by
  rcases h1 : suppress_attr b.closeStdin with _ | e1 <;>
    rcases h2 : suppress_attr b.closeStdout with _ | e2 <;>
      rcases h3 : suppress_attr b.closeStderr with _ | e3 <;>
        rcases h4 : b.terminate with _ | e4 <;>
          rcases h5 : b.wait with _ | e5 <;>
            simp [term_seq, h1, h2, h3, h4, h5]

theorem terminate_process_killReached (b : TermBehavior) :
    (terminate_process b).killReached = (term_seq b).1 := by
  unfold terminate_process
  rcases h : term_seq b with ⟨kr, exc⟩
  cases exc with
  | none => simp
  | some e => cases he : e.isOSError <;> simp [he]

theorem terminate_process_raised_none (b : TermBehavior) :
    (terminate_process b).raised = none ↔
      ∀ e, (term_seq b).2 = some e → e.isOSError = true := by
  unfold terminate_process
  rcases h : term_seq b with ⟨kr, exc⟩
  cases exc with
  | none => simp
  | some e => cases he : e.isOSError <;> simp [he]

theorem stop_state_process (s : ServiceState) (o : StopOracle) :
    (stop s o).state.process = s.process := by
  unfold stop
  cases hp : s.process <;> simp [hp]

theorem stop_raised_eq (s : ServiceState) (o : StopOracle) (hp : s.process = some ()) :
    (stop s o).raised = (terminate_process o.term).raised := by
  simp [stop, hp]

theorem stop_killReached_eq (s : ServiceState) (o : StopOracle) (hp : s.process = some ()) :
    (stop s o).killReached = (terminate_process o.term).killReached := by
  simp [stop, hp]

theorem stop_raised_none_of_no_process (s : ServiceState) (o : StopOracle)
    (hp : s.process = none) : (stop s o).raised = none := by
  simp [stop, hp]

theorem string_append_assoc (a b c : String) : a ++ b ++ c = a ++ (b ++ c) := by
  rcases a with ⟨la⟩
  rcases b with ⟨lb⟩
  rcases c with ⟨lc⟩
  show String.mk (la ++ lb ++ lc) = String.mk (la ++ (lb ++ lc))
  rw [List.append_assoc]

/-! ## Helper lemmas about the cooperative-shutdown polling loop -/

theorem shutdown_checks_aux_all_conn (connAt : Nat → Bool) :
    ∀ fuel i, (∀ k, k < fuel → connAt (i + k) = true) →
      shutdown_checks_aux connAt fuel i = fuel := by
  intro fuel
  induction fuel with
  | zero => intro i _; rfl
  | succ f ih =>
    intro i h
    have hc := h 0 (Nat.succ_pos f)
    simp only [Nat.add_zero] at hc
    simp only [shutdown_checks_aux, hc, if_true]
    rw [ih (i + 1) (fun k hk => by
      have hh := h (k + 1) (Nat.succ_lt_succ hk)
      rwa [show i + (k + 1) = i + 1 + k by omega] at hh)]

theorem shutdown_checks_aux_first_false (connAt : Nat → Bool) :
    ∀ j fuel i, j < fuel → (∀ k, k < j → connAt (i + k) = true) →
      connAt (i + j) = false →
      shutdown_checks_aux connAt fuel i = j + 1 := by
  intro j
  induction j with
  | zero =>
    intro fuel i hf _ hc
    obtain ⟨f, rfl⟩ : ∃ f, fuel = f + 1 := ⟨fuel - 1, by omega⟩
    simp only [Nat.add_zero] at hc
    simp [shutdown_checks_aux, hc]
  | succ j ih =>
    intro fuel i hf h1 hc
    obtain ⟨f, rfl⟩ : ∃ f, fuel = f + 1 := ⟨fuel - 1, by omega⟩
    have hc0 := h1 0 (Nat.succ_pos j)
    simp only [Nat.add_zero] at hc0
    simp only [shutdown_checks_aux, hc0, if_true]
    rw [ih f (i + 1) (by omega)
      (fun k hk => by
        have hh := h1 (k + 1) (Nat.succ_lt_succ hk)
        rwa [show i + (k + 1) = i + 1 + k by omega] at hh)
      (by rwa [show i + 1 + j = i + (j + 1) by omega])]

/-! ## Claims -/

/-- C1 counterexample: a child process that has already exited with status
code 0 (`poll()` returns `0`) does *not* make `assert_process_still_running`
fail — `if return_code:` is false for `0` — contradicting "fails with an
error carrying the process's actual exit status code, regardless of which
status code the process exited with". -/
theorem c1_counterexample :
    assert_process_still_running "/usr/bin/driver" (some 0) = Except.ok () := rfl

/-- C1 amended: only for a *nonzero* exit status does
`assert_process_still_running` (and hence the polling loop inside `start`)
fail, with the `WebDriverException` carrying the actual status code; an exit
status of 0 passes the check as if the process were still running. -/
theorem c1_amended_thm :
    (∀ path rc, rc ≠ 0 →
      assert_process_still_running path (some rc) =
        .error (.webDriverException
          ("Service " ++ path ++ " unexpectedly exited. Status code was: " ++ toString rc))) ∧
    (∀ path (pollAt : Nat → Option Int) (connAt : Nat → Bool) rc,
      pollAt 0 = some rc → rc ≠ 0 →
      start_loop path pollAt connAt =
        .exited (.webDriverException
          ("Service " ++ path ++ " unexpectedly exited. Status code was: " ++ toString rc))) := by
  constructor
  · intro path rc h
    simp [assert_process_still_running, h]
  · intro path pollAt connAt rc hp h
    unfold start_loop
    exact start_loop_aux_exit path pollAt connAt 0 59 0
      (.webDriverException
        ("Service " ++ path ++ " unexpectedly exited. Status code was: " ++ toString rc))
      (by omega)
      (fun k hk => absurd hk (Nat.not_lt_zero k))
      (fun k hk => absurd hk (Nat.not_lt_zero k))
      (by simp [hp, assert_process_still_running, h])

/-- C1 witness: at exit status 5 the check fails with the message carrying 5,
both directly and through the polling loop. -/
theorem c1_witness :
    assert_process_still_running "/usr/bin/driver" (some 5) =
      .error (.webDriverException
        ("Service " ++ "/usr/bin/driver" ++ " unexpectedly exited. Status code was: "
          ++ toString (5 : Int))) ∧
    start_loop "/usr/bin/driver" (fun _ => some 5) (fun _ => true) =
      .exited (.webDriverException
        ("Service " ++ "/usr/bin/driver" ++ " unexpectedly exited. Status code was: "
          ++ toString (5 : Int))) :=
  ⟨c1_amended_thm.1 "/usr/bin/driver" 5 (by decide),
   c1_amended_thm.2 "/usr/bin/driver" (fun _ => some 5) (fun _ => true) 5 rfl (by decide)⟩

/-- C2 counterexample: with a live process handle, when `process.wait(60)`
raises `subprocess.TimeoutExpired` (not an `OSError`, so not caught by
`except OSError`), `stop()` raises it to the caller and the forced
`process.kill()` is never reached — contradicting "any error arising during
the termination sequence is caught and only logged" and "the forced kill is
reached on every path". -/
theorem c2_counterexample :
    (stop s1c wait_timeout_stop).raised = some PyError.timeoutExpired ∧
    (stop s1c wait_timeout_stop).killReached = false := ⟨rfl, rfl⟩

/-- C2 amended: on `stop()` with a live process, an `OSError` escaping the
termination sequence is caught (only logged), so `stop()` raises nothing
exactly when every error that escapes the `try:` body is an `OSError`; and
the forced kill is reached exactly when the stream closes (modulo suppressed
`AttributeError`), the terminate signal and the 60-unit wait all complete
without raising. -/
theorem c2_amended_thm :
    ∀ s o, s.process = some () →
      ((stop s o).raised = none ↔
        ∀ e, (term_seq o.term).2 = some e → e.isOSError = true) ∧
      ((stop s o).killReached = true ↔
        suppress_attr o.term.closeStdin = none ∧ suppress_attr o.term.closeStdout = none ∧
        suppress_attr o.term.closeStderr = none ∧ o.term.terminate = none ∧
        o.term.wait = none) := by
  intro s o hp
  constructor
  · rw [stop_raised_eq s o hp]
    exact terminate_process_raised_none o.term
  · rw [stop_killReached_eq s o hp, terminate_process_killReached]
    exact term_seq_kill_iff o.term

/-- C2 witness: in a quiescent environment a stop on a live handle raises
nothing and reaches the forced kill. -/
theorem c2_witness :
    (stop s1c benign_stop).raised = none ∧ (stop s1c benign_stop).killReached = true := by
  have h := c2_amended_thm s1c benign_stop rfl
  refine ⟨h.1.mpr ?_, h.2.mpr ⟨rfl, rfl, rfl, rfl, rfl⟩⟩
  intro e he
  simp [benign_stop, benign_term, term_seq, suppress_attr] at he

/-- C3 counterexample: after a successful `start` the process field is
populated, but `stop` never assigns `self.process = None`, so after `stop`
completes full teardown the field is *still* `some ()` — contradicting "it
is null again after stop() (or destruction) completes full teardown". -/
theorem c3_counterexample :
    start s0c SpawnResult.ok (fun _ => none) (fun _ => true) = (s1c, none) ∧
    (stop s1c benign_stop).state.process = some () := ⟨rfl, rfl⟩

/-- C3 amended: the process field is null before `start()` is called and
non-null after a successful `start()`, but `stop()` (and hence destruction,
which merely calls `stop()`) leaves the field unchanged — it is never reset
to null after teardown. -/
theorem c3_amended_thm :
    (∀ executable port log_file env msg os_environ freePort,
      (service_init executable port log_file env msg os_environ freePort).process = none) ∧
    (∀ s spawn (pollAt : Nat → Option Int) (connAt : Nat → Bool) s',
      start s spawn pollAt connAt = (s', none) → s'.process = some ()) ∧
    (∀ s o, (stop s o).state.process = s.process) := by
  refine ⟨fun _ _ _ _ _ _ _ => rfl, ?_, stop_state_process⟩
  intro s spawn pollAt connAt s' h
  unfold start at h
  rcases hs : start_spawn s.path s.start_error_message spawn with e | u
  · simp only [hs] at h
    injection h with h1 h2
    simp at h2
  · simp only [hs] at h
    rcases hl : start_loop s.path pollAt connAt with i | e | _ <;> simp only [hl] at h
    · injection h with h1 h2
      rw [← h1]
    · injection h with h1 h2
      simp at h2
    · injection h with h1 h2
      simp at h2

/-- C3 witness: a concrete successful start populates the field. -/
theorem c3_witness : s1c.process = some () :=
  c3_amended_thm.2.1 s0c SpawnResult.ok (fun _ => none) (fun _ => true) s1c rfl

/-- C4 counterexample: when the HTTP shutdown request fails with `URLError`,
`send_remote_shutdown_command` returns *before* the polling loop, so zero
`is_connectable` polls happen even though the port stays reachable —
contradicting "including the case where the request fails with a network
error — isConnectable is polled up to 30 times". -/
theorem c4_counterexample :
    send_remote_shutdown_command UrlopenResult.urlError (fun _ => true) = 0 ∧
    send_remote_shutdown_command UrlopenResult.urlError (fun _ => true) ≠ 30 :=
  ⟨rfl, by decide⟩

/-- C4 amended: only when the HTTP shutdown request succeeds is
`isConnectable` polled, up to 30 times, exiting early with the first poll
that finds the port no longer accepting connections; when the request raises
`URLError` the method returns immediately with no polling at all. -/
theorem c4_amended_thm :
    (∀ connAt : Nat → Bool, send_remote_shutdown_command .urlError connAt = 0) ∧
    (∀ connAt : Nat → Bool, (∀ i, i < 30 → connAt i = true) →
      send_remote_shutdown_command .ok connAt = 30) ∧
    (∀ (connAt : Nat → Bool) j, j < 30 → (∀ i, i < j → connAt i = true) →
      connAt j = false →
      send_remote_shutdown_command .ok connAt = j + 1) := by
  refine ⟨fun _ => rfl, ?_, ?_⟩
  · intro connAt h
    show shutdown_checks_aux connAt 30 0 = 30
    exact shutdown_checks_aux_all_conn connAt 30 0 (fun k hk => by simpa using h k hk)
  · intro connAt j hj h1 hc
    show shutdown_checks_aux connAt 30 0 = j + 1
    exact shutdown_checks_aux_first_false connAt j 30 0 hj
      (fun k hk => by simpa using h1 k hk) (by simpa using hc)

/-- C4 witness: a port that stops accepting connections at the fourth poll
ends the loop after exactly 4 checks; an always-reachable port is polled the
full 30 times. -/
theorem c4_witness :
    send_remote_shutdown_command UrlopenResult.ok (fun i => decide (i < 3)) = 4 ∧
    send_remote_shutdown_command UrlopenResult.ok (fun _ => true) = 30 :=
  ⟨c4_amended_thm.2.2 (fun i => decide (i < 3)) 3 (by decide)
      (fun i hi => by simpa using hi) (by decide),
   c4_amended_thm.2.1 (fun _ => true) (fun _ _ => rfl)⟩

/-- C5 counterexample: an `OSError` whose errno is neither `ENOENT` nor
`EACCES` (here errno 11, `EAGAIN`) is re-raised as-is by the `else: raise`
branch, not wrapped in a launch error — contradicting "every other OS-level
spawn failure raises a launch error wrapping the underlying message". -/
theorem c5_counterexample :
    start_spawn "/usr/bin/driver" "hint" (SpawnResult.osError 11) =
      Except.error (PyError.osError 11) := rfl

/-- C5 amended: on spawn failure, `ENOENT` raises the launch error naming the
executable's basename and the variant-supplied hint, `EACCES` raises the
"wrong permissions" launch error with the same hint, `TypeError` propagates
as-is, any *other* `OSError` also propagates unwrapped, and only non-OS
exceptions are wrapped in a launch error carrying the underlying message. -/
theorem c5_amended_thm :
    ∀ path hint,
      start_spawn path hint .typeError = .error .typeError ∧
      start_spawn path hint (.osError ENOENT) = .error (.webDriverException
        ("'" ++ basename path ++ "' executable needs to be in PATH. " ++ hint)) ∧
      start_spawn path hint (.osError EACCES) = .error (.webDriverException
        ("'" ++ basename path ++ "' executable may have wrong permissions. " ++ hint)) ∧
      (∀ e, e ≠ ENOENT → e ≠ EACCES →
        start_spawn path hint (.osError e) = .error (.osError e)) ∧
      (∀ msg, start_spawn path hint (.otherError msg) = .error (.webDriverException
        ("The executable " ++ basename path ++ " needs to be available in the path. "
          ++ hint ++ "\n" ++ msg))) := by
  intro path hint
  refine ⟨rfl, rfl, rfl, ?_, fun msg => rfl⟩
  intro e h1 h2
  simp [start_spawn, h1, h2]

/-- C5 witness: errno 11 is neither `ENOENT` nor `EACCES` and propagates
unwrapped. -/
theorem c5_witness :
    start_spawn "/usr/bin/chromedriver" "hint" (SpawnResult.osError 11) =
      Except.error (PyError.osError 11) :=
  (c5_amended_thm "/usr/bin/chromedriver" "hint").2.2.2.1 11 (by decide) (by decide)

/-- C6 (confirmed): the readiness-polling loop of `start` (a) raises the
connect-timeout outcome after exactly 60 iterations when no reachability
check succeeds and the process never registers as exited, (b) succeeds on
the first reachable check, (c) checks process liveness before port
reachability in every iteration (an iteration whose liveness assertion
fails yields the exited outcome no matter what the reachability check at
that iteration would have said), and (d) never performs a 61st reachability
or liveness check: the outcome depends only on the first 60 oracle values.
The loop is a total function in this embedding, so it always terminates. -/
theorem c6_readiness_loop_thm :
    (∀ path (pollAt : Nat → Option Int) (connAt : Nat → Bool),
      (∀ i, i < 60 → assert_process_still_running path (pollAt i) = .ok ()) →
      (∀ i, i < 60 → connAt i = false) →
      start_loop path pollAt connAt = .timeout) ∧
    (∀ path (pollAt : Nat → Option Int) (connAt : Nat → Bool) j, j < 60 →
      (∀ i, i ≤ j → assert_process_still_running path (pollAt i) = .ok ()) →
      (∀ i, i < j → connAt i = false) →
      connAt j = true →
      start_loop path pollAt connAt = .connected j) ∧
    (∀ path (pollAt : Nat → Option Int) (connAt : Nat → Bool) j e, j < 60 →
      (∀ i, i < j → assert_process_still_running path (pollAt i) = .ok ()) →
      (∀ i, i < j → connAt i = false) →
      assert_process_still_running path (pollAt j) = .error e →
      start_loop path pollAt connAt = .exited e) ∧
    (∀ path (pollAt pollAt' : Nat → Option Int) (connAt connAt' : Nat → Bool),
      (∀ i, i < 60 → pollAt i = pollAt' i ∧ connAt i = connAt' i) →
      start_loop path pollAt connAt = start_loop path pollAt' connAt') := by
  refine ⟨?_, ?_, ?_, ?_⟩
  · intro path pollAt connAt h1 h2
    exact start_loop_aux_timeout path pollAt connAt 59 0
      (fun k hk => by simpa using h1 k (by omega))
      (fun k hk => by simpa using h2 k (by omega))
  · intro path pollAt connAt j hj h1 h2 hc
    have h := start_loop_aux_first_conn path pollAt connAt j 59 0 (by omega)
      (fun k hk => by simpa using h1 k hk)
      (fun k hk => by simpa using h2 k hk)
      (by simpa using hc)
    simpa using h
  · intro path pollAt connAt j e hj h1 h2 he
    exact start_loop_aux_exit path pollAt connAt j 59 0 e (by omega)
      (fun k hk => by simpa using h1 k hk)
      (fun k hk => by simpa using h2 k hk)
      (by simpa using he)
  · intro path pollAt pollAt' connAt connAt' h
    exact start_loop_aux_congr path pollAt pollAt' connAt connAt' 59 0
      (fun k hk => by simpa using h k (by omega))

/-- C6 witness: with a process that stays alive and a port that never
accepts connections, the loop times out; changing the oracles from index 60
on does not change the outcome. -/
theorem c6_witness :
    start_loop "/usr/bin/driver" (fun _ => none) (fun _ => false) = .timeout ∧
    start_loop "/usr/bin/driver" (fun _ => none) (fun _ => false) =
      start_loop "/usr/bin/driver" (fun _ => none) (fun i => decide (i ≥ 60)) :=
  ⟨c6_readiness_loop_thm.1 "/usr/bin/driver" (fun _ => none) (fun _ => false)
      (fun _ _ => rfl) (fun _ _ => rfl),
   c6_readiness_loop_thm.2.2.2 "/usr/bin/driver" (fun _ => none) (fun _ => none)
      (fun _ => false) (fun i => decide (i ≥ 60))
      (fun i hi => ⟨rfl, by simp [Nat.not_le_of_lt hi]⟩)⟩

/-- C7 counterexample: `stop()` is not unconditionally idempotent: because
`self.process` is never cleared, a second `stop()` re-runs the termination
sequence, and if the 60-unit graceful wait then raises
`subprocess.TimeoutExpired` the second call raises it to the caller —
contradicting "calling stop() a second time in succession never raises". -/
theorem c7_counterexample :
    (stop (stop s1c benign_stop).state wait_timeout_stop).raised =
      some PyError.timeoutExpired := rfl

/-- C7 amended: a second `stop()` never raises provided every error escaping
its termination sequence is an `OSError` (in particular the graceful wait
does not time out); and the repeated close of the output sink is tolerated
as a no-op — closing an already-closed sink leaves it closed and the close
is wrapped in `contextlib.suppress(Exception)`, so no close error ever
escapes `stop()` (the `raised` outcome is independent of the close). -/
theorem c7_amended_thm :
    (∀ lf, close_log_file (close_log_file lf) = close_log_file lf) ∧
    (∀ s o1 o2, (∀ e, (term_seq o2.term).2 = some e → e.isOSError = true) →
      (stop (stop s o1).state o2).raised = none) := by
  constructor
  · intro lf
    cases lf <;> rfl
  · intro s o1 o2 h
    cases hp : (stop s o1).state.process with
    | none => exact stop_raised_none_of_no_process _ o2 hp
    | some u =>
      cases u
      rw [stop_raised_eq _ o2 hp]
      exact (terminate_process_raised_none o2.term).mpr h

/-- C7 witness: a concrete second stop after a completed first stop (live
handle, benign termination steps) raises nothing. -/
theorem c7_witness :
    (stop (stop s1c benign_stop).state benign_stop).raised = none :=
  c7_amended_thm.2 s1c benign_stop benign_stop
    (fun e he => by simp [benign_stop, benign_term, term_seq, suppress_attr] at he)

/-- C8 (confirmed): the constructor resolves the port immediately — a
nonzero port is kept, port 0 is replaced by the free-port allocator's value —
and the base URL is exactly `http://localhost:<resolvedPort>`, a function of
the resolved port alone. -/
theorem c8_port_url_thm :
    ∀ executable port log_file env msg os_environ freePort,
      (port ≠ 0 →
        (service_init executable port log_file env msg os_environ freePort).port = port) ∧
      (port = 0 →
        (service_init executable port log_file env msg os_environ freePort).port = freePort) ∧
      service_url (service_init executable port log_file env msg os_environ freePort) =
        "http://localhost:" ++
          toString (service_init executable port log_file env msg os_environ freePort).port ∧
      (∀ s s' : ServiceState, s.port = s'.port → service_url s = service_url s') := by
  intro executable port log_file env msg os_environ freePort
  refine ⟨fun h => by simp [service_init, h], fun h => by simp [service_init, h], ?_, ?_⟩
  · show "http://" ++ ("localhost" ++ ":" ++ toString _) = _
    rw [← string_append_assoc]
    rw [show (("http://" ++ ("localhost" ++ ":")) : String) = "http://localhost:" from rfl]
  · intro s s' h
    unfold service_url join_host_port
    rw [h]

/-- C8 witness: port 4444 is kept, port 0 becomes the allocator's 9515, and
the URL is `http://localhost:4444`. -/
theorem c8_witness :
    (service_init "/usr/bin/driver" 4444 LogFile.pipe none "" [] 9515).port = 4444 ∧
    (service_init "/usr/bin/driver" 0 LogFile.pipe none "" [] 9515).port = 9515 ∧
    service_url (service_init "/usr/bin/driver" 4444 LogFile.pipe none "" [] 9515) =
      "http://localhost:" ++
        toString (service_init "/usr/bin/driver" 4444 LogFile.pipe none "" [] 9515).port :=
  ⟨(c8_port_url_thm "/usr/bin/driver" 4444 LogFile.pipe none "" [] 9515).1 (by decide),
   (c8_port_url_thm "/usr/bin/driver" 0 LogFile.pipe none "" [] 9515).2.1 rfl,
   (c8_port_url_thm "/usr/bin/driver" 4444 LogFile.pipe none "" [] 9515).2.2.1⟩

/-- C9 (confirmed): constructing the Safari service with a path that does
not exist on disk fails immediately — the `Except.error` is produced before
`service_init` (the base constructor) is ever invoked and no spawn oracle is
even consulted — with a message naming the expected download/install source
(`https://developer.apple.com/safari/download/` appears in both message
variants); and for every existing path, `command_line_args` returns exactly
`["-p", "<port>"]` followed by the supplied extra arguments verbatim. -/
theorem c9_safari_thm :
    (∀ (path_exists : String → Bool) freePort os_environ executable_path port quiet
        service_args,
      path_exists executable_path = false →
        safari_init path_exists freePort os_environ executable_path port quiet
            service_args =
          .error (if str_contains executable_path "Safari Technology Preview" then
                    safari_stp_message
                  else safari_not_found_message)) ∧
    str_contains safari_stp_message "https://developer.apple.com/safari/download/" = true ∧
    str_contains safari_not_found_message "https://developer.apple.com/safari/download/"
      = true ∧
    (∀ (path_exists : String → Bool) freePort os_environ executable_path port quiet
        service_args s,
      safari_init path_exists freePort os_environ executable_path port quiet
          service_args = .ok s →
      command_line_args s = ["-p", toString s.base.port] ++ service_args.getD []) := by
  refine ⟨?_, by decide, by decide, ?_⟩
  · intro pe fp os ep port quiet sa h
    simp [safari_init, h]
  · intro pe fp os ep port quiet sa s h
    unfold safari_init at h
    rcases hpe : pe ep with _ | _ <;> simp only [hpe] at h
    · simp at h
    · simp only [if_true] at h
      injection h with h1
      rw [← h1]
      rfl

/-- C9 witness: a missing path yields the SafariDriver-not-found message; an
existing path yields `-p 4444` followed by the extra argument. -/
theorem c9_witness :
    safari_init (fun _ => false) 7777 [] "/missing/safaridriver" 0 false none =
      Except.error safari_not_found_message ∧
    command_line_args
        ⟨service_init "/usr/bin/safaridriver" 4444 LogFile.pipe none "" [] 7777,
          false, ["--diagnose"]⟩ =
      ["-p", "4444", "--diagnose"] := by
  constructor
  · have h := c9_safari_thm.1 (fun _ => false) 7777 [] "/missing/safaridriver" 0 false
      none rfl
    rw [show str_contains "/missing/safaridriver" "Safari Technology Preview" = false
      by decide] at h
    simpa using h
  · have h := c9_safari_thm.2.2.2 (fun _ => true) 7777 [] "/usr/bin/safaridriver" 4444
      false (some ["--diagnose"])
      ⟨service_init "/usr/bin/safaridriver" 4444 LogFile.pipe none "" [] 7777,
        false, ["--diagnose"]⟩ rfl
    exact h.trans (by decide)

/-- C10 (confirmed): `env or os.environ` treats an explicitly empty mapping
as falsy, so passing `some []` to the constructor replaces it with the
current process environment; consequently the constructed handle's
environment can only be empty when the process environment itself is empty —
a deliberately empty child environment is unreachable through the public
interface. -/
theorem c10_env_thm :
    (∀ executable port log_file msg os_environ freePort,
      (service_init executable port log_file (some []) msg os_environ freePort).env =
        os_environ) ∧
    (∀ executable port log_file env msg os_environ freePort,
      (service_init executable port log_file env msg os_environ freePort).env = [] →
      os_environ = []) := by
  constructor
  · intro e p lf m os fp
    rfl
  · intro e p lf env m os fp h
    rcases env with _ | l
    · simpa [service_init] using h
    · by_cases hl : l = []
      · subst hl
        simpa [service_init] using h
      · simp [service_init, hl] at h

/-- C10 witness: a nonempty process environment survives `some []`; an empty
constructed environment forces an empty process environment. -/
theorem c10_witness :
    (service_init "/usr/bin/driver" 1 LogFile.pipe (some []) "" [("PATH", "/usr/bin")]
        2).env = [("PATH", "/usr/bin")] ∧
    ([] : List (String × String)) = [] :=
  ⟨c10_env_thm.1 "/usr/bin/driver" 1 LogFile.pipe "" [("PATH", "/usr/bin")] 2,
   c10_env_thm.2 "/usr/bin/driver" 1 LogFile.pipe none "" [] 2 rfl⟩
